import Mathlib

/-!
Verification of the Newport SMC100 stage driver.

This file gives a shallow embedding of the serial stage driver found in
`stage.py` (class `NewportStage`) and of the legacy position-tolerance
variant found in `main.py`, and proves properties of the embedded code.

Modelling conventions:
* A raw response line is a `List Char`; Python string operations
  (`str.strip`, `str.replace(pat, "")`, slicing) are embedded as explicit
  functions on `List Char` below.
* The serial transport is a test double: a script `env` of pending
  responses, each paired with the duration (in milliseconds) that its
  `readline` takes.  Every `_send_command` writes exactly one line and
  consumes exactly one script entry; an exhausted script yields the empty
  line, which is what `pyserial`'s `readline` returns on timeout.
* Wall-clock time is an `Int` counting milliseconds, advanced explicitly
  by every sleep and read: the `time.sleep(0.02)` inside `_send_command`
  is `+20`, the `time.sleep(0.1)` of the readiness loop is `+100`, the
  `time.sleep(0.05)` and `time.sleep(0.2)` of the legacy variant are
  `+50` and `+200`; the timeouts 30.0 and 60.0 are `30000` and `60000`.
* Positions are exact rationals `ℚ`; the float tolerance `0.005` of the
  legacy variant is `1/200`.
* A Python function that can raise (the `assert` in
  `_get_controller_state`) returns an `Option`: `none` is the propagated
  `AssertionError`.
-/

namespace Stage

/-- Python `str.strip()`: drop leading and trailing whitespace. -/
def pyStrip (s : List Char) : List Char :=
  ((s.dropWhile Char.isWhitespace).reverse.dropWhile Char.isWhitespace).reverse

/-- Python `str.replace(pat, "")`, fuel-indexed.  Python scans left to
right deleting non-overlapping occurrences of `pat`; every step consumes
at least one character of the scanned string, so `s.length` is a
sufficient fuel bound (see `pyDeleteAll`).  With exhausted fuel the rest
of the string is returned unscanned. -/
def pyDeleteAllAux (pat : List Char) : Nat → List Char → List Char
  | 0, s => s
  | _ + 1, [] => []
  | fuel + 1, c :: rest =>
    if !pat.isEmpty && pat.isPrefixOf (c :: rest) then
      pyDeleteAllAux pat fuel ((c :: rest).drop pat.length)
    else
      c :: pyDeleteAllAux pat fuel rest

/-- Python `s.replace(pat, "")`: delete every (left-to-right,
non-overlapping) occurrence of `pat` anywhere in `s`. -/
def pyDeleteAll (pat s : List Char) : List Char :=
  pyDeleteAllAux pat s.length s

/-- `pat` occurs as a contiguous substring of `s`. -/
def occursIn (pat : List Char) : List Char → Bool
  | [] => pat.isEmpty
  | c :: rest => pat.isPrefixOf (c :: rest) || occursIn pat rest

/-- Decimal digits of the axis number, as prefixed onto every command
and echoed in responses (`self.axis` is `1` in the source). -/
def axisChars (axis : Nat) : List Char :=
  (Nat.repr axis).toList

/-- The echo tag of a response: `str(axis) + opcode`, e.g. `"1TS"`. -/
def echoTag (axis : Nat) (op : List Char) : List Char :=
  axisChars axis ++ op

/-- The full command line written to the serial port:
`str(axis) + cmd + CR + LF` (`_send_command`, stage.py line 31). -/
def cmdLine (axis : Nat) (cmd : List Char) : List Char :=
  axisChars axis ++ cmd ++ ['\r', '\n']

/-- The response-decoding step shared by `_get_controller_state`,
`get_error` and `get_position`:
`resp.replace(str(axis) + op, "").strip()`. -/
def cleanResp (axis : Nat) (op : List Char) (resp : List Char) : List Char :=
  pyStrip (pyDeleteAll (echoTag axis op) resp)

/-- Decoding as §4.2 of the design document words it: strip one leading
`str(axis) + op` tag when present, then trim; stated only to be compared
with the implemented `cleanResp`. -/
def specDecode (axis : Nat) (op : List Char) (resp : List Char) : List Char :=
  if (echoTag axis op).isPrefixOf resp then
    pyStrip (resp.drop (echoTag axis op).length)
  else
    pyStrip resp

/-- Driver-visible state of the serial session: the clock (ms), the
transport double's pending `(read duration, raw line)` script, and the
lines written so far. -/
structure St where
  now : Int
  env : List (Int × List Char)
  writes : List (List Char)

/-- `_send_command` (stage.py lines 26-35): write
`str(axis) + cmd + CRLF`, sleep 0.02 s, then read one line and strip it.
On an exhausted script the read runs into the 0.1 s serial timeout and
yields the empty line. -/
def sendCommand (axis : Nat) (cmd : List Char) (st : St) : List Char × St :=
  match st.env with
  | [] => ([], ⟨st.now + 20 + 100, [], st.writes ++ [cmdLine axis cmd]⟩)
  | (d, r) :: rest =>
    (pyStrip r, ⟨st.now + 20 + d, rest, st.writes ++ [cmdLine axis cmd]⟩)

/-- The classification step of `_get_controller_state` on the cleaned
payload: `assert len(clean_resp) == 6` then `clean_resp[-2:]`.  For a
six-character payload the slice `[-2:]` is `drop 4`; a failing assert is
`none`. -/
def classifyPayload (clean : List Char) : Option (List Char) :=
  if clean.length = 6 then some (clean.drop 4) else none

/-- `_get_controller_state` (stage.py lines 37-46): send `TS`, decode
the response, assert the six-character payload, return its last two
characters. -/
def getControllerState (axis : Nat) (st : St) : Option (List Char) × St :=
  let p := sendCommand axis ['T', 'S'] st
  (classifyPayload (cleanResp axis ['T', 'S'] p.1), p.2)

/-- The READY codes of `_wait_for_ready`, `_home` and `move_absolute`:
32 ready-from-homing, 33 ready-from-moving, 34 ready-from-disable,
35 ready-from-jogging. -/
def readyStates : List (List Char) :=
  [['3', '2'], ['3', '3'], ['3', '4'], ['3', '5']]

def isReadyState (s : List Char) : Bool :=
  readyStates.contains s

/-- The disable/configuration codes that `_wait_for_ready` treats as
failure: 3C, 3D, 3E, 14. -/
def faultStates : List (List Char) :=
  [['3', 'C'], ['3', 'D'], ['3', 'E'], ['1', '4']]

def isFaultState (s : List Char) : Bool :=
  faultStates.contains s

/-- The moving/homing codes checked by `_home`: 28, 1E, 1F. -/
def busyStates : List (List Char) :=
  [['2', '8'], ['1', 'E'], ['1', 'F']]

/-- One trace entry per `TS` poll issued by `_wait_for_ready`:
(clock when the poll was written, read duration, classification result;
`none` is the failing six-character assert). -/
abbrev PollEntry : Type := Int × Int × Option (List Char)

/-- The `while` loop of `_wait_for_ready` (stage.py lines 48-68), by
recursion on the transport script.  Returns (`some ()` for a normal
return / `none` for a propagated `AssertionError`, the poll trace, the
final session state).  Each iteration: check `time.time() - start <
timeout`; poll `_get_controller_state`; return on a READY code; return
(after printing) on a disable/fault code; otherwise `time.sleep(0.1)`
and loop. -/
def waitLoop (axis : Nat) (timeout start : Int) :
    Int → List (List Char) → List (Int × List Char) →
    Option Unit × List PollEntry × St
  | now, writes, [] =>
    if now - start < timeout then
      -- Exhausted transport: the poll reads the empty line, whose
      -- cleaned payload fails the six-character assert.
      (none, [(now, 100, none)], (getControllerState axis ⟨now, [], writes⟩).2)
    else
      (some (), [], ⟨now, [], writes⟩)
  | now, writes, (d, r) :: rest =>
    if now - start < timeout then
      match getControllerState axis ⟨now, (d, r) :: rest, writes⟩ with
      | (none, st1) => (none, [(now, d, none)], st1)
      | (some s, st1) =>
        if isReadyState s then (some (), [(now, d, some s)], st1)
        else if isFaultState s then (some (), [(now, d, some s)], st1)
        else
          let w := waitLoop axis timeout start (st1.now + 100) st1.writes rest
          (w.1, (now, d, some s) :: w.2.1, w.2.2)
    else
      (some (), [], ⟨now, (d, r) :: rest, writes⟩)

/-- `_wait_for_ready(timeout)`: run the polling loop with
`start = time.time()` taken at entry. -/
def waitForReady (axis : Nat) (timeout : Int) (st : St) :
    Option Unit × List PollEntry × St :=
  waitLoop axis timeout st.now st.now st.writes st.env

/-- The poll trace of a `_wait_for_ready` call. -/
def waitTrace (axis : Nat) (timeout : Int) (st : St) : List PollEntry :=
  (waitForReady axis timeout st).2.1

/-- The literal prefix of `get_error`'s non-empty result:
`f"Error Code: {clean_resp}"`. -/
def errLabel : List Char :=
  "Error Code: ".toList

/-- `get_error` (stage.py lines 95-105): send `TE`, decode; a payload
other than `"@"` yields `"Error Code: " + payload`, the payload `"@"`
yields the empty string. -/
def getError (axis : Nat) (st : St) : List Char × St :=
  let p := sendCommand axis ['T', 'E'] st
  (if cleanResp axis ['T', 'E'] p.1 ≠ ['@'] then
      errLabel ++ cleanResp axis ['T', 'E'] p.1
    else [],
   p.2)

/-- Value of a digit string, most significant first. -/
def digitsVal (l : List Char) : Nat :=
  l.foldl (fun a c => 10 * a + (c.toNat - 48)) 0

/-- Unsigned part of Python `float(...)` on the decimal forms the
controller produces: digits with an optional fractional part.  (The
exponent/`inf`/`nan` forms Python also accepts never occur on this
protocol and are immaterial to every property proved here.) -/
def parseUnsigned (t : List Char) : Option ℚ :=
  match t.dropWhile Char.isDigit with
  | [] =>
    if (t.takeWhile Char.isDigit).isEmpty then none
    else some (digitsVal (t.takeWhile Char.isDigit))
  | '.' :: frac =>
    if frac.all Char.isDigit && !((t.takeWhile Char.isDigit).isEmpty && frac.isEmpty) then
      some ((digitsVal (t.takeWhile Char.isDigit) : ℚ) +
        (digitsVal frac : ℚ) / (10 : ℚ) ^ frac.length)
    else none
  | _ => none

/-- Python `float(...)` with an optional sign, as `Option`:
`none` is the `ValueError` branch. -/
def parseFloat : List Char → Option ℚ
  | '-' :: t => (parseUnsigned t).map (fun q => -q)
  | '+' :: t => parseUnsigned t
  | t => parseUnsigned t

/-- `get_position` (stage.py lines 107-117): send `TP`, decode, parse as
a float; the `ValueError` branch returns the sentinel `-999.0`. -/
def getPosition (axis : Nat) (st : St) : ℚ × St :=
  let p := sendCommand axis ['T', 'P'] st
  ((parseFloat (cleanResp axis ['T', 'P'] p.1)).getD (-999), p.2)

/-- Wire text of the numeric argument of `PA`, standing in for Python's
float formatting in `f"PA{target_mm}"`.  The exact digits are immaterial
to every property proved here; this encoding is injective and
computable. -/
def ratChars (q : ℚ) : List Char :=
  (if q.num < 0 then ['-'] else []) ++
    (Nat.repr q.num.natAbs).toList ++ ['/'] ++ (Nat.repr q.den).toList

/-- The `PA` command text `f"PA{target_mm}"`. -/
def paCmd (target : ℚ) : List Char :=
  ['P', 'A'] ++ ratChars target

/-- `move_absolute` (stage.py lines 119-144): poll the state; reject
unless READY; send `PA`; query `get_error` and abort on a non-empty
error; `_wait_for_ready()` with the default 30 s timeout; finally read
the position with `TP`.  The Python function returns `None` on every
path; `some ()` is that normal return, `none` a propagated
`AssertionError`. -/
def moveAbsolute (axis : Nat) (target : ℚ) (st : St) : Option Unit × St :=
  let q := getControllerState axis st
  match q.1 with
  | none => (none, q.2)
  | some s =>
    if !isReadyState s then (some (), q.2)
    else
      let p := sendCommand axis (paCmd target) q.2
      let e := getError axis p.2
      if e.1 ≠ [] then (some (), e.2)
      else
        let w := waitForReady axis 30000 e.2
        match w.1 with
        | none => (none, w.2.2)
        | some _ => (some (), (getPosition axis w.2.2).2)

/-- `_home` (stage.py lines 70-93): poll the state once; READY is a
no-op; moving/homing (28, 1E, 1F) delegates to `_wait_for_ready()`;
otherwise send `OR` and `_wait_for_ready(timeout=60.0)`. -/
def home (axis : Nat) (st : St) : Option Unit × St :=
  let q := getControllerState axis st
  match q.1 with
  | none => (none, q.2)
  | some s =>
    if isReadyState s then (some (), q.2)
    else if busyStates.contains s then
      let w := waitForReady axis 30000 q.2
      (w.1, w.2.2)
    else
      let p := sendCommand axis ['O', 'R'] q.2
      let w := waitForReady axis 60000 p.2
      (w.1, w.2.2)

end Stage

namespace Legacy

/-- The polling loop of the legacy `move_absolute` (main.py lines
86-106), by recursion on the number of polls allowed (the loop itself is
unbounded: `while True`).  `r i` is the value `get_position()` returns
on the `i`-th poll and `d i` that poll's read duration (ms); `now` is
the clock when the `i`-th `TP` is written.  One iteration:
`get_position` (a 0.05 s processing sleep plus the read), break when
`abs(current_pos - target_mm) < 0.005`, else `time.sleep(0.2)`.
Returns (`some i` when the loop broke on poll `i` within the allowed
polls, `none` otherwise; the trace of clock values at which the `TP`
polls were written). -/
def tolLoop (target : ℚ) (r : Nat → ℚ) (d : Nat → Int) :
    Nat → Nat → Int → Option Nat × List Int
  | 0, _, _ => (none, [])
  | fuel + 1, i, now =>
    if |r i - target| < 1/200 then (some i, [now])
    else
      let w := tolLoop target r d fuel (i + 1) (now + 50 + d i + 200)
      (w.1, now :: w.2)

/-- The legacy `move_absolute(target_mm)` (main.py lines 86-106): send
`PA` (one write; its response takes `dPA` ms), then run the tolerance
polling loop, whose first `TP` goes out after the `PA` exchange
(0.05 s processing sleep plus `dPA`).  Returns the single non-`TP`
line written (the `PA` command) alongside the loop's result. -/
def moveAbsolute (axis : Nat) (target : ℚ) (dPA : Int) (r : Nat → ℚ)
    (d : Nat → Int) (fuel : Nat) :
    List (List Char) × (Option Nat × List Int) :=
  ([Stage.cmdLine axis (Stage.paCmd target)],
   tolLoop target r d fuel 0 (50 + dPA))

end Legacy

/-- Transport script of a concrete `move_absolute` run whose `PA` target
is rejected by the controller: READY status, the (discarded) `PA` echo,
then a `TE` response carrying the error token `K`. -/
def mvErrEnv : List (Int × List Char) :=
  [(0, "1TS000033".toList), (0, []), (0, "1TEK".toList)]

/-- Transport script of a concrete `move_absolute` run whose readiness
wait ends on the disable/fault state 3C: READY status, the `PA` echo, a
no-error `TE` response, the fault status, and the final `TP` response. -/
def mvFaultEnv : List (Int × List Char) :=
  [(0, "1TS000033".toList), (0, []), (0, "1TE@".toList),
   (0, "1TS00003C".toList), (0, "1TP9.99".toList)]

/-- A concrete session for `_wait_for_ready`: two MOVING statuses
followed by a READY status. -/
def pollSt : Stage.St :=
  ⟨0, [(0, "1TS000028".toList), (0, "1TS000028".toList),
       (0, "1TS000033".toList)], []⟩

namespace Stage

theorem sendCommand_writes (axis : Nat) (cmd : List Char) (st : St) :
    (sendCommand axis cmd st).2.writes = st.writes ++ [cmdLine axis cmd] := by
  rcases st with ⟨now, env, writes⟩
  cases env with
  | nil => simp [sendCommand]
  | cons e rest => obtain ⟨d, r⟩ := e; simp [sendCommand]

theorem getControllerState_snd (axis : Nat) (st : St) :
    (getControllerState axis st).2 = (sendCommand axis ['T', 'S'] st).2 := rfl

theorem getError_snd (axis : Nat) (st : St) :
    (getError axis st).2 = (sendCommand axis ['T', 'E'] st).2 := rfl

theorem getPosition_snd (axis : Nat) (st : St) :
    (getPosition axis st).2 = (sendCommand axis ['T', 'P'] st).2 := rfl

end Stage

/-- C1: for well-formed six-character status payloads the state
classification of `_get_controller_state` depends on the last two
characters only: two six-character payloads whose last two characters
agree (`drop 4` of a six-character list is its last two characters) are
classified identically, whatever their first four characters. -/
theorem controller_state_last_two (s t : List Char) (hs : s.length = 6)
    (ht : t.length = 6) (h : s.drop 4 = t.drop 4) :
    Stage.classifyPayload s = Stage.classifyPayload t := by
  simp [Stage.classifyPayload, hs, ht, h]

theorem controller_state_last_two_w :
    ("ABCD32".toList).length = 6 ∧ ("XY0932".toList).length = 6 ∧
    ("ABCD32".toList).drop 4 = ("XY0932".toList).drop 4 ∧
    Stage.classifyPayload ("ABCD32".toList)
      = Stage.classifyPayload ("XY0932".toList) :=
  ⟨by decide, by decide, by decide,
   controller_state_last_two _ _ (by decide) (by decide) (by decide)⟩

/-- C4 counterexample: the response `"1TS32"` cleans to the payload
`"32"`, shorter than six characters; `_get_controller_state` then fails
its `assert` (modelled as `none`): an `AssertionError` propagates and no
state — `Unknown` or otherwise — is reported, contrary to the claim. -/
theorem short_payload_unknown_cex :
    Stage.cleanResp 1 ['T', 'S'] (Stage.pyStrip ("1TS32".toList)) = ['3', '2'] ∧
    (Stage.getControllerState 1 ⟨0, [(0, "1TS32".toList)], []⟩).1 = none := by
  decide

/-- C4 amended: for every status response whose payload after prefix
stripping and trimming is shorter than six characters, the status
interpretation raises an `AssertionError` (modelled as `none`) instead
of reporting a state. -/
theorem short_payload_raises (axis : Nat) (now d : Int) (r : List Char)
    (rest : List (Int × List Char)) (writes : List (List Char))
    (h : (Stage.cleanResp axis ['T', 'S'] (Stage.pyStrip r)).length < 6) :
    (Stage.getControllerState axis ⟨now, (d, r) :: rest, writes⟩).1 = none := by
  have hne : (Stage.cleanResp axis ['T', 'S'] (Stage.pyStrip r)).length ≠ 6 := by
    omega
  simp [Stage.getControllerState, Stage.sendCommand, Stage.classifyPayload, hne]

theorem short_payload_raises_w :
    (Stage.cleanResp 1 ['T', 'S'] (Stage.pyStrip ("1TS32".toList))).length < 6 ∧
    (Stage.getControllerState 1 ⟨0, [(0, "1TS32".toList)], []⟩).1 = none :=
  ⟨by decide, short_payload_raises 1 0 0 _ [] [] (by decide)⟩

/-- C5 counterexample: with the controller already in the READY state 33
(response `"1TS000033"`), `home()` still performs a protocol write — the
`TS` status poll it needs in order to learn the state — so its write
count is not zero. -/
theorem home_ready_zero_writes_cex :
    (Stage.getControllerState 1 ⟨0, [(0, "1TS000033".toList)], []⟩).1
      = some ['3', '3'] ∧
    Stage.isReadyState ['3', '3'] = true ∧
    (Stage.home 1 ⟨0, [(0, "1TS000033".toList)], []⟩).2.writes ≠ [] := by
  decide

/-- C5 amended: when the initial status poll yields a READY state,
`home()` performs exactly one protocol write — the `TS` status query —
and returns immediately: no `OR` and no further command is sent. -/
theorem home_ready_single_ts_write (axis : Nat) (st : Stage.St)
    (s : List Char) (h1 : (Stage.getControllerState axis st).1 = some s)
    (h2 : Stage.isReadyState s = true) :
    (Stage.home axis st).1 = some () ∧
    (Stage.home axis st).2.writes
      = st.writes ++ [Stage.cmdLine axis ['T', 'S']] := by
  constructor
  · simp [Stage.home, h1, h2]
  · simp [Stage.home, h1, h2, Stage.getControllerState_snd,
      Stage.sendCommand_writes]

theorem home_ready_single_ts_write_w :
    (Stage.getControllerState 1 ⟨0, [(0, "1TS000034".toList)], []⟩).1
      = some ['3', '4'] ∧
    Stage.isReadyState ['3', '4'] = true ∧
    (Stage.home 1 ⟨0, [(0, "1TS000034".toList)], []⟩).1 = some () ∧
    (Stage.home 1 ⟨0, [(0, "1TS000034".toList)], []⟩).2.writes
      = [] ++ [Stage.cmdLine 1 ['T', 'S']] :=
  ⟨by decide, by decide,
   (home_ready_single_ts_write 1 _ ['3', '4'] (by decide) (by decide)).1,
   (home_ready_single_ts_write 1 _ ['3', '4'] (by decide) (by decide)).2⟩

/-- C8 counterexample: a `TE` response decoding to the payload `"H"`
makes `get_error` return `"Error Code: H"`, which is not the raw payload
`"H"` the claim promises as the error token. -/
theorem get_error_token_cex :
    Stage.cleanResp 1 ['T', 'E'] (Stage.pyStrip ("1TEH".toList)) = ['H'] ∧
    (Stage.getError 1 ⟨0, [(0, "1TEH".toList)], []⟩).1
      = "Error Code: H".toList ∧
    "Error Code: H".toList ≠ ['H'] := by
  decide

/-- C8 amended: `get_error` issues a `TE` query; the payload `"@"`
yields the empty string, and any other payload yields the string
`"Error Code: "` followed by that payload as the error token. -/
theorem get_error_mapping (axis : Nat) (now d : Int) (r : List Char)
    (rest : List (Int × List Char)) (writes : List (List Char)) :
    (Stage.cleanResp axis ['T', 'E'] (Stage.pyStrip r) = ['@'] →
      (Stage.getError axis ⟨now, (d, r) :: rest, writes⟩).1 = []) ∧
    (Stage.cleanResp axis ['T', 'E'] (Stage.pyStrip r) ≠ ['@'] →
      (Stage.getError axis ⟨now, (d, r) :: rest, writes⟩).1
        = Stage.errLabel ++ Stage.cleanResp axis ['T', 'E'] (Stage.pyStrip r)) ∧
    (Stage.getError axis ⟨now, (d, r) :: rest, writes⟩).2.writes
      = writes ++ [Stage.cmdLine axis ['T', 'E']] := by
  refine ⟨fun h => ?_, fun h => ?_, ?_⟩
  · simp [Stage.getError, Stage.sendCommand, h]
  · simp [Stage.getError, Stage.sendCommand, h]
  · simp [Stage.getError, Stage.sendCommand]

theorem get_error_mapping_w :
    Stage.cleanResp 1 ['T', 'E'] (Stage.pyStrip ("1TE@".toList)) = ['@'] ∧
    (Stage.getError 1 ⟨0, [(0, "1TE@".toList)], []⟩).1 = [] :=
  ⟨by decide, (get_error_mapping 1 0 0 _ [] []).1 (by decide)⟩

/-- C2: when the status poll at the start of `move_absolute` yields a
state outside the READY set, the move is rejected: the call returns
(normally) having written only the `TS` poll line — in particular no
`PA` command is ever written to the transport during that call. -/
theorem move_absolute_not_ready_no_pa (axis : Nat) (target : ℚ)
    (st : Stage.St) (s : List Char)
    (h1 : (Stage.getControllerState axis st).1 = some s)
    (h2 : Stage.isReadyState s = false) :
    (Stage.moveAbsolute axis target st).1 = some () ∧
    (Stage.moveAbsolute axis target st).2.writes
      = st.writes ++ [Stage.cmdLine axis ['T', 'S']] := by
  constructor
  · simp [Stage.moveAbsolute, h1, h2]
  · simp [Stage.moveAbsolute, h1, h2, Stage.getControllerState_snd,
      Stage.sendCommand_writes]

theorem move_absolute_not_ready_no_pa_w :
    (Stage.getControllerState 1 ⟨0, [(0, "1TS000028".toList)], []⟩).1
      = some ['2', '8'] ∧
    Stage.isReadyState ['2', '8'] = false ∧
    (Stage.moveAbsolute 1 5 ⟨0, [(0, "1TS000028".toList)], []⟩).1 = some () ∧
    (Stage.moveAbsolute 1 5 ⟨0, [(0, "1TS000028".toList)], []⟩).2.writes
      = [] ++ [Stage.cmdLine 1 ['T', 'S']] :=
  ⟨by decide, by decide,
   (move_absolute_not_ready_no_pa 1 5 _ ['2', '8'] (by decide) (by decide)).1,
   (move_absolute_not_ready_no_pa 1 5 _ ['2', '8'] (by decide) (by decide)).2⟩

/-- C6: in `move_absolute`, when the `get_error` query issued right
after the `PA` command returns a non-empty error, the move is aborted at
once: the call returns having written exactly the `TS`, `PA` and `TE`
lines — no readiness-wait `TS` poll and no final `TP` position query
happen during that call. -/
theorem move_absolute_error_aborts (axis : Nat) (target : ℚ)
    (st : Stage.St) (s : List Char)
    (h1 : (Stage.getControllerState axis st).1 = some s)
    (h2 : Stage.isReadyState s = true)
    (h3 : (Stage.getError axis
            (Stage.sendCommand axis (Stage.paCmd target)
              (Stage.getControllerState axis st).2).2).1 ≠ []) :
    (Stage.moveAbsolute axis target st).1 = some () ∧
    (Stage.moveAbsolute axis target st).2.writes
      = st.writes ++ [Stage.cmdLine axis ['T', 'S'],
          Stage.cmdLine axis (Stage.paCmd target),
          Stage.cmdLine axis ['T', 'E']] := by
  rw [Stage.getControllerState_snd] at h3
  refine ⟨?_, ?_⟩ <;>
    simp [Stage.moveAbsolute, h1, h2, h3, Stage.getError_snd,
      Stage.getControllerState_snd, Stage.sendCommand_writes]

theorem move_absolute_error_aborts_w :
    (Stage.getControllerState 1 ⟨0, mvErrEnv, []⟩).1 = some ['3', '3'] ∧
    Stage.isReadyState ['3', '3'] = true ∧
    (Stage.getError 1
        (Stage.sendCommand 1 (Stage.paCmd 5)
          (Stage.getControllerState 1 ⟨0, mvErrEnv, []⟩).2).2).1 ≠ [] ∧
    (Stage.moveAbsolute 1 5 ⟨0, mvErrEnv, []⟩).1 = some () ∧
    (Stage.moveAbsolute 1 5 ⟨0, mvErrEnv, []⟩).2.writes
      = [] ++ [Stage.cmdLine 1 ['T', 'S'], Stage.cmdLine 1 (Stage.paCmd 5),
          Stage.cmdLine 1 ['T', 'E']] :=
  ⟨by decide, by decide, by decide,
   (move_absolute_error_aborts 1 5 _ ['3', '3'] (by decide) (by decide)
     (by decide)).1,
   (move_absolute_error_aborts 1 5 _ ['3', '3'] (by decide) (by decide)
     (by decide)).2⟩

/-- C10: whenever the readiness wait inside `move_absolute` returns —
which it does alike when a READY state was observed, when a
disable/fault state was observed, and when the 30 s deadline elapsed —
`move_absolute` proceeds to issue the final `TP` position query and
returns normally (`some ()`, the Python `None`): the caller receives no
exception and no value distinguishing a faulted or timed-out move from
a successful one. -/
theorem move_absolute_ignores_wait_outcome (axis : Nat) (target : ℚ)
    (st : Stage.St) (s : List Char)
    (h1 : (Stage.getControllerState axis st).1 = some s)
    (h2 : Stage.isReadyState s = true)
    (h3 : (Stage.getError axis
            (Stage.sendCommand axis (Stage.paCmd target)
              (Stage.getControllerState axis st).2).2).1 = [])
    (h4 : (Stage.waitForReady axis 30000
            (Stage.getError axis
              (Stage.sendCommand axis (Stage.paCmd target)
                (Stage.getControllerState axis st).2).2).2).1 = some ()) :
    (Stage.moveAbsolute axis target st).1 = some () ∧
    (Stage.moveAbsolute axis target st).2.writes
      = (Stage.waitForReady axis 30000
          (Stage.getError axis
            (Stage.sendCommand axis (Stage.paCmd target)
              (Stage.getControllerState axis st).2).2).2).2.2.writes
        ++ [Stage.cmdLine axis ['T', 'P']] := by
  rw [Stage.getControllerState_snd] at h3 h4
  rw [Stage.getError_snd] at h4
  refine ⟨?_, ?_⟩ <;>
    simp [Stage.moveAbsolute, h1, h2, h3, h4, Stage.getPosition_snd,
      Stage.getError_snd, Stage.getControllerState_snd,
      Stage.sendCommand_writes]

theorem move_absolute_ignores_wait_outcome_w :
    (Stage.getControllerState 1 ⟨0, mvFaultEnv, []⟩).1 = some ['3', '3'] ∧
    Stage.isReadyState ['3', '3'] = true ∧
    (Stage.getError 1
        (Stage.sendCommand 1 (Stage.paCmd 5)
          (Stage.getControllerState 1 ⟨0, mvFaultEnv, []⟩).2).2).1 = [] ∧
    (Stage.waitForReady 1 30000
        (Stage.getError 1
          (Stage.sendCommand 1 (Stage.paCmd 5)
            (Stage.getControllerState 1 ⟨0, mvFaultEnv, []⟩).2).2).2).1
      = some () ∧
    ((Stage.waitForReady 1 30000
        (Stage.getError 1
          (Stage.sendCommand 1 (Stage.paCmd 5)
            (Stage.getControllerState 1 ⟨0, mvFaultEnv, []⟩).2).2).2).2.1.getD
        0 default).2.2 = some ['3', 'C'] ∧
    Stage.isFaultState ['3', 'C'] = true ∧
    (Stage.moveAbsolute 1 5 ⟨0, mvFaultEnv, []⟩).1 = some () ∧
    (Stage.moveAbsolute 1 5 ⟨0, mvFaultEnv, []⟩).2.writes
      = (Stage.waitForReady 1 30000
          (Stage.getError 1
            (Stage.sendCommand 1 (Stage.paCmd 5)
              (Stage.getControllerState 1 ⟨0, mvFaultEnv, []⟩).2).2).2).2.2.writes
        ++ [Stage.cmdLine 1 ['T', 'P']] :=
  ⟨by decide, by decide, by decide, by decide, by decide, by decide,
   (move_absolute_ignores_wait_outcome 1 5 _ ['3', '3'] (by decide) (by decide)
     (by decide) (by decide)).1,
   (move_absolute_ignores_wait_outcome 1 5 _ ['3', '3'] (by decide) (by decide)
     (by decide) (by decide)).2⟩

namespace Stage

theorem waitLoop_trace (axis : Nat) (timeout start : Int)
    (env : List (Int × List Char)) :
    ∀ (now : Int) (writes : List (List Char)),
      (∀ i, i + 1 < (waitLoop axis timeout start now writes env).2.1.length →
        ∃ s, ((waitLoop axis timeout start now writes env).2.1.getD i default).2.2
            = some s ∧ isReadyState s = false ∧ isFaultState s = false) ∧
      (∀ i, i < (waitLoop axis timeout start now writes env).2.1.length →
        ((waitLoop axis timeout start now writes env).2.1.getD i default).1 - start
          < timeout) ∧
      (∀ i, i + 1 < (waitLoop axis timeout start now writes env).2.1.length →
        ((waitLoop axis timeout start now writes env).2.1.getD (i + 1) default).1
          = ((waitLoop axis timeout start now writes env).2.1.getD i default).1 + 20
            + ((waitLoop axis timeout start now writes env).2.1.getD i
                default).2.1 + 100) ∧
      ((waitLoop axis timeout start now writes env).2.1 ≠ [] →
        ((waitLoop axis timeout start now writes env).2.1.getD 0 default).1
          = now) := by
  induction env with
  | nil =>
    intro now writes
    by_cases ht : now - start < timeout
    · simp only [waitLoop, if_pos ht]
      refine ⟨?_, ?_, ?_, ?_⟩
      · intro i hi; simp at hi
      · intro i hi
        simp only [List.length_singleton] at hi
        have : i = 0 := by omega
        subst this
        simpa using ht
      · intro i hi; simp at hi
      · intro _; simp
    · simp only [waitLoop, if_neg ht]
      refine ⟨?_, ?_, ?_, ?_⟩
      · intro i hi; simp at hi
      · intro i hi; simp at hi
      · intro i hi; simp at hi
      · intro h; simp at h
  | cons e rest ih =>
    obtain ⟨d, r⟩ := e
    intro now writes
    by_cases ht : now - start < timeout
    · cases hcl : classifyPayload (cleanResp axis ['T', 'S'] (pyStrip r)) with
      | none =>
        simp only [waitLoop, if_pos ht, getControllerState, sendCommand, hcl]
        refine ⟨?_, ?_, ?_, ?_⟩
        · intro i hi; simp at hi
        · intro i hi
          simp only [List.length_singleton] at hi
          have : i = 0 := by omega
          subst this
          simpa using ht
        · intro i hi; simp at hi
        · intro _; simp
      | some s =>
        cases hr : isReadyState s with
        | true =>
          simp only [waitLoop, if_pos ht, getControllerState, sendCommand, hcl,
            hr, if_true]
          refine ⟨?_, ?_, ?_, ?_⟩
          · intro i hi; simp at hi
          · intro i hi
            simp only [List.length_singleton] at hi
            have : i = 0 := by omega
            subst this
            simpa using ht
          · intro i hi; simp at hi
          · intro _; simp
        | false =>
          cases hf : isFaultState s with
          | true =>
            simp only [waitLoop, if_pos ht, getControllerState, sendCommand,
              hcl, hr, hf, Bool.false_eq_true, if_false, if_true]
            refine ⟨?_, ?_, ?_, ?_⟩
            · intro i hi; simp at hi
            · intro i hi
              simp only [List.length_singleton] at hi
              have : i = 0 := by omega
              subst this
              simpa using ht
            · intro i hi; simp at hi
            · intro _; simp
          | false =>
            have H := ih (now + 20 + d + 100) (writes ++ [cmdLine axis ['T', 'S']])
            simp only [waitLoop, if_pos ht, getControllerState, sendCommand,
              hcl, hr, hf, Bool.false_eq_true, if_false] at H ⊢
            refine ⟨?_, ?_, ?_, ?_⟩
            · intro i hi
              simp only [List.length_cons] at hi
              cases i with
              | zero =>
                exact ⟨s, by simp, hr, hf⟩
              | succ j =>
                simpa using H.1 j (by omega)
            · intro i hi
              simp only [List.length_cons] at hi
              cases i with
              | zero => simpa using ht
              | succ j =>
                simpa using H.2.1 j (by omega)
            · intro i hi
              simp only [List.length_cons] at hi
              cases i with
              | zero =>
                have hne :
                    (waitLoop axis timeout start (now + 20 + d + 100)
                      (writes ++ [cmdLine axis ['T', 'S']]) rest).2.1 ≠ [] := by
                  intro hemp
                  rw [hemp] at hi
                  simp at hi
                have h0 := H.2.2.2 hne
                simpa using h0
              | succ j =>
                simpa using H.2.2.1 j (by omega)
            · intro _; simp
    · simp only [waitLoop, if_neg ht]
      refine ⟨?_, ?_, ?_, ?_⟩
      · intro i hi; simp at hi
      · intro i hi; simp at hi
      · intro i hi; simp at hi
      · intro h; simp at h

end Stage

/-- C3: the polling policy of `_wait_for_ready`, stated on its poll
trace (one entry per `TS` poll: clock at the poll, read duration,
classified state).  For every transport script and every timeout:
(1) polling stops as soon as a READY (32-35) or disable/fault
(3C, 3D, 3E, 14) state is observed — every poll that is followed by
another poll observed a state that is neither; (2) every poll is issued
strictly before the wall-clock deadline `st.now + timeout` — once the
deadline has elapsed the loop polls no further; (3) between successive
polls the loop sleeps the fixed 100 ms interval, so consecutive poll
times differ by exactly the poll's own duration (the 20 ms controller
processing sleep plus the read) plus 100 ms. -/
theorem wait_for_ready_policy (axis : Nat) (timeout : Int) (st : Stage.St) :
    (∀ i, i + 1 < (Stage.waitTrace axis timeout st).length →
      ∃ s, ((Stage.waitTrace axis timeout st).getD i default).2.2 = some s ∧
        Stage.isReadyState s = false ∧ Stage.isFaultState s = false) ∧
    (∀ i, i < (Stage.waitTrace axis timeout st).length →
      ((Stage.waitTrace axis timeout st).getD i default).1 - st.now < timeout) ∧
    (∀ i, i + 1 < (Stage.waitTrace axis timeout st).length →
      ((Stage.waitTrace axis timeout st).getD (i + 1) default).1
        = ((Stage.waitTrace axis timeout st).getD i default).1 + 20
          + ((Stage.waitTrace axis timeout st).getD i default).2.1 + 100) := by
  have H := Stage.waitLoop_trace axis timeout st.now st.env st.now st.writes
  exact ⟨H.1, H.2.1, H.2.2.1⟩

theorem wait_for_ready_policy_w :
    (∃ s, ((Stage.waitTrace 1 30000 pollSt).getD 0 default).2.2 = some s ∧
      Stage.isReadyState s = false ∧ Stage.isFaultState s = false) ∧
    ((Stage.waitTrace 1 30000 pollSt).getD 1 default).1
      = ((Stage.waitTrace 1 30000 pollSt).getD 0 default).1 + 20
        + ((Stage.waitTrace 1 30000 pollSt).getD 0 default).2.1 + 100 ∧
    ((Stage.waitTrace 1 30000 pollSt).getD 2 default).1 - pollSt.now < 30000 :=
  ⟨(wait_for_ready_policy 1 30000 pollSt).1 0 (by decide),
   (wait_for_ready_policy 1 30000 pollSt).2.2 0 (by decide),
   (wait_for_ready_policy 1 30000 pollSt).2.1 2 (by decide)⟩

namespace Stage

theorem isPrefixOf_self_append (p s : List Char) :
    p.isPrefixOf (p ++ s) = true := by
  induction p with
  | nil => simp [List.isPrefixOf]
  | cons c cs ih => simp [List.isPrefixOf, ih]

theorem pyDeleteAllAux_no_occ (pat : List Char) :
    ∀ (fuel : Nat) (s : List Char), occursIn pat s = false →
      pyDeleteAllAux pat fuel s = s := by
  intro fuel
  induction fuel with
  | zero => intro s _; rfl
  | succ n ih =>
    intro s h
    cases s with
    | nil => rfl
    | cons c rest =>
      simp only [occursIn, Bool.or_eq_false_iff] at h
      simp [pyDeleteAllAux, h.1, ih rest h.2]

theorem pyDeleteAll_no_occ (pat s : List Char) (h : occursIn pat s = false) :
    pyDeleteAll pat s = s :=
  pyDeleteAllAux_no_occ pat s.length s h

theorem pyDeleteAllAux_fuel (pat : List Char) :
    ∀ (fuel f2 : Nat) (s : List Char), s.length ≤ fuel → s.length ≤ f2 →
      pyDeleteAllAux pat fuel s = pyDeleteAllAux pat f2 s := by
  intro fuel
  induction fuel with
  | zero =>
    intro f2 s h1 _
    have hs : s = [] := List.eq_nil_of_length_eq_zero (by omega)
    subst hs
    cases f2 <;> rfl
  | succ n ih =>
    intro f2 s h1 h2
    cases s with
    | nil => cases f2 <;> rfl
    | cons c rest =>
      cases f2 with
      | zero => simp at h2
      | succ m =>
        by_cases hc : (!pat.isEmpty && pat.isPrefixOf (c :: rest)) = true
        · have hp : 1 ≤ pat.length := by
            cases pat with
            | nil => simp at hc
            | cons q qs => simp
          simp only [pyDeleteAllAux, hc, if_true]
          apply ih
          · simp only [List.length_drop, List.length_cons] at *
            omega
          · simp only [List.length_drop, List.length_cons] at *
            omega
        · simp only [pyDeleteAllAux, hc, if_false]
          simp only [List.length_cons] at h1 h2
          rw [ih m rest (by omega) (by omega)]
          simp

theorem pyDeleteAll_head_occurrence (pat s : List Char) (hp : pat ≠ []) :
    pyDeleteAll pat (pat ++ s) = pyDeleteAll pat s := by
  cases pat with
  | nil => exact absurd rfl hp
  | cons p ps =>
    have hcond : (!(p :: ps).isEmpty && (p :: ps).isPrefixOf ((p :: ps) ++ s))
        = true := by
      simp [isPrefixOf_self_append]
    have hlen : ((p :: ps) ++ s).length = (ps.length + s.length) + 1 := by
      simp only [List.length_append, List.length_cons]
      omega
    show pyDeleteAllAux (p :: ps) ((p :: ps) ++ s).length ((p :: ps) ++ s) = _
    rw [hlen]
    rw [show (p :: ps) ++ s = p :: (ps ++ s) from rfl]
    rw [pyDeleteAllAux]
    rw [show p :: (ps ++ s) = (p :: ps) ++ s from rfl]
    rw [if_pos hcond]
    rw [List.drop_left]
    exact pyDeleteAllAux_fuel (p :: ps) (ps.length + s.length) s.length s
      (by omega) (le_refl _)

end Stage

/-- C7 counterexample: decoding the response `"5.01TP"` for the `TP`
query with axis 1: the tag `"1TP"` is absent at the head of the text, so
the claim says the trimmed text is returned unchanged; the code's
`str.replace` instead deletes the trailing occurrence of `"1TP"` and
yields `"5.0"`, differing from the claimed single-leading-occurrence
decode `specDecode`. -/
theorem decode_leading_only_cex :
    Stage.cleanResp 1 ['T', 'P'] ("5.01TP".toList) = "5.0".toList ∧
    Stage.specDecode 1 ['T', 'P'] ("5.01TP".toList) = "5.01TP".toList ∧
    Stage.cleanResp 1 ['T', 'P'] ("5.01TP".toList)
      ≠ Stage.specDecode 1 ['T', 'P'] ("5.01TP".toList) := by
  decide

/-- C7 amended: decoding deletes every left-to-right occurrence of the
`str(axis) + opcode` tag anywhere in the response (Python `str.replace`)
and trims surrounding whitespace; in particular (1) when the tag occurs
nowhere in the response the trimmed text is returned unchanged, and
(2) a leading occurrence of the tag is deleted. -/
theorem decode_removes_all_occurrences (axis : Nat) (op resp : List Char)
    (h : Stage.occursIn (Stage.echoTag axis op) resp = false) :
    Stage.cleanResp axis op resp = Stage.pyStrip resp ∧
    ∀ (pat s : List Char), pat ≠ [] →
      Stage.pyDeleteAll pat (pat ++ s) = Stage.pyDeleteAll pat s :=
  ⟨by simp [Stage.cleanResp, Stage.pyDeleteAll_no_occ _ _ h],
   fun pat s hp => Stage.pyDeleteAll_head_occurrence pat s hp⟩

theorem decode_removes_all_occurrences_w :
    Stage.occursIn (Stage.echoTag 1 ['T', 'P']) ("10.5".toList) = false ∧
    Stage.cleanResp 1 ['T', 'P'] ("10.5".toList)
      = Stage.pyStrip ("10.5".toList) ∧
    ['1', 'T', 'P'] ≠ ([] : List Char) ∧
    Stage.pyDeleteAll ['1', 'T', 'P'] (['1', 'T', 'P'] ++ "x".toList)
      = Stage.pyDeleteAll ['1', 'T', 'P'] ("x".toList) :=
  ⟨by decide,
   (decode_removes_all_occurrences 1 ['T', 'P'] ("10.5".toList) (by decide)).1,
   by decide,
   (decode_removes_all_occurrences 1 ['T', 'P'] ("10.5".toList)
     (by decide)).2 ['1', 'T', 'P'] ("x".toList) (by decide)⟩

namespace Legacy

theorem tolLoop_break (target : ℚ) (r : Nat → ℚ) (d : Nat → Int) (n k : Nat)
    (now : Int) (hk : |r k - target| < 1/200) :
    tolLoop target r d (n + 1) k now = (some k, [now]) := by
  simp only [tolLoop]
  rw [if_pos hk]

theorem tolLoop_step (target : ℚ) (r : Nat → ℚ) (d : Nat → Int) (n k : Nat)
    (now : Int) (hk : ¬(|r k - target| < 1/200)) :
    tolLoop target r d (n + 1) k now
      = ((tolLoop target r d n (k + 1) (now + 50 + d k + 200)).1,
         now :: (tolLoop target r d n (k + 1) (now + 50 + d k + 200)).2) := by
  simp only [tolLoop]
  rw [if_neg hk]

theorem tolLoop_some (target : ℚ) (r : Nat → ℚ) (d : Nat → Int) :
    ∀ (fuel k : Nat) (now : Int) (i : Nat),
      (tolLoop target r d fuel k now).1 = some i →
      |r i - target| < 1/200 ∧ k ≤ i ∧
        ∀ j, k ≤ j → j < i → ¬(|r j - target| < 1/200) := by
  intro fuel
  induction fuel with
  | zero => intro k now i h; simp [tolLoop] at h
  | succ n ih =>
    intro k now i h
    by_cases hk : |r k - target| < 1/200
    · rw [tolLoop_break target r d n k now hk] at h
      simp at h
      subst h
      exact ⟨hk, le_refl k, fun j hj1 hj2 => by omega⟩
    · rw [tolLoop_step target r d n k now hk] at h
      obtain ⟨hw, hki, hmin⟩ := ih (k + 1) (now + 50 + d k + 200) i h
      refine ⟨hw, by omega, fun j hj1 hj2 => ?_⟩
      rcases Nat.eq_or_lt_of_le hj1 with heq | hlt
      · subst heq; exact hk
      · exact hmin j (by omega) hj2

theorem tolLoop_complete (target : ℚ) (r : Nat → ℚ) (d : Nat → Int) :
    ∀ (fuel k : Nat) (now : Int) (i : Nat), k ≤ i → i < k + fuel →
      |r i - target| < 1/200 →
      (∀ j, k ≤ j → j < i → ¬(|r j - target| < 1/200)) →
      (tolLoop target r d fuel k now).1 = some i := by
  intro fuel
  induction fuel with
  | zero => intro k now i h1 h2 _ _; omega
  | succ n ih =>
    intro k now i h1 h2 hw hmin
    by_cases hk : |r k - target| < 1/200
    · have hke : k = i := by
        by_contra hne
        exact hmin k (le_refl k) (by omega) hk
      subst hke
      rw [tolLoop_break target r d n k now hk]
    · have hki : k < i := by
        rcases Nat.eq_or_lt_of_le h1 with heq | h
        · subst heq; exact absurd hw hk
        · exact h
      rw [tolLoop_step target r d n k now hk]
      exact ih (k + 1) (now + 50 + d k + 200) i (by omega) (by omega) hw
        (fun j hj1 hj2 => hmin j (by omega) hj2)

theorem tolLoop_none (target : ℚ) (r : Nat → ℚ) (d : Nat → Int)
    (h : ∀ j, ¬(|r j - target| < 1/200)) :
    ∀ (fuel k : Nat) (now : Int), (tolLoop target r d fuel k now).1 = none := by
  intro fuel
  induction fuel with
  | zero => intro k now; rfl
  | succ n ih =>
    intro k now
    rw [tolLoop_step target r d n k now (h k)]
    exact ih (k + 1) (now + 50 + d k + 200)

theorem tolLoop_times (target : ℚ) (r : Nat → ℚ) (d : Nat → Int) :
    ∀ (fuel k : Nat) (now : Int),
      ((tolLoop target r d fuel k now).2 ≠ [] →
        (tolLoop target r d fuel k now).2.getD 0 0 = now) ∧
      (∀ i, i + 1 < (tolLoop target r d fuel k now).2.length →
        (tolLoop target r d fuel k now).2.getD (i + 1) 0
          = (tolLoop target r d fuel k now).2.getD i 0 + 50 + d (k + i)
            + 200) := by
  intro fuel
  induction fuel with
  | zero =>
    intro k now
    refine ⟨fun h => absurd rfl h, fun i hi => ?_⟩
    simp [tolLoop] at hi
  | succ n ih =>
    intro k now
    by_cases hk : |r k - target| < 1/200
    · rw [tolLoop_break target r d n k now hk]
      refine ⟨fun _ => by simp, fun i hi => ?_⟩
      simp at hi
    · have H := ih (k + 1) (now + 50 + d k + 200)
      rw [tolLoop_step target r d n k now hk]
      refine ⟨fun _ => by simp, fun i hi => ?_⟩
      simp only [List.length_cons] at hi
      cases i with
      | zero =>
        have hne : (tolLoop target r d n (k + 1)
            (now + 50 + d k + 200)).2 ≠ [] := by
          intro hemp
          rw [hemp] at hi
          simp at hi
        have h0 := H.1 hne
        simp only [List.getD_cons_succ, List.getD_cons_zero, Nat.add_zero]
        exact h0
      | succ j =>
        have hj := H.2 j (by omega)
        have harg : (k + 1) + j = k + (j + 1) := by omega
        rw [harg] at hj
        simpa using hj

end Legacy

/-- C9: the legacy (position-tolerance) `move_absolute` of main.py
issues the `PA` command and then polls `get_position`, sleeping the
fixed 200 ms between polls (consecutive `TP` poll times differ by the
poll's own duration — the 50 ms processing sleep plus the read — plus
200 ms), and its loop breaks exactly on the first reading within
`|current - target| < 0.005` (= 1/200) mm; it has no timeout: when no
reading is ever within tolerance, the loop has not terminated after any
number of polls (`none` for every poll bound `fuel`). -/
theorem legacy_move_tolerance_loop (axis : Nat) (target : ℚ) (dPA : Int)
    (r : Nat → ℚ) (d : Nat → Int) (fuel : Nat) :
    (Legacy.moveAbsolute axis target dPA r d fuel).1
      = [Stage.cmdLine axis (Stage.paCmd target)] ∧
    (∀ i, (Legacy.moveAbsolute axis target dPA r d fuel).2.1 = some i →
      |r i - target| < 1/200 ∧ ∀ j, j < i → ¬(|r j - target| < 1/200)) ∧
    (∀ i, i < fuel → |r i - target| < 1/200 →
      (∀ j, j < i → ¬(|r j - target| < 1/200)) →
      (Legacy.moveAbsolute axis target dPA r d fuel).2.1 = some i) ∧
    ((∀ j, ¬(|r j - target| < 1/200)) →
      (Legacy.moveAbsolute axis target dPA r d fuel).2.1 = none) ∧
    (∀ i, i + 1 < (Legacy.moveAbsolute axis target dPA r d fuel).2.2.length →
      (Legacy.moveAbsolute axis target dPA r d fuel).2.2.getD (i + 1) 0
        = (Legacy.moveAbsolute axis target dPA r d fuel).2.2.getD i 0 + 50
          + d i + 200) := by
  refine ⟨rfl, ?_, ?_, ?_, ?_⟩
  · intro i h
    obtain ⟨hw, _, hmin⟩ := Legacy.tolLoop_some target r d fuel 0 (50 + dPA) i h
    exact ⟨hw, fun j hj => hmin j (Nat.zero_le j) hj⟩
  · intro i hif hw hmin
    exact Legacy.tolLoop_complete target r d fuel 0 (50 + dPA) i (Nat.zero_le i)
      (by omega) hw (fun j _ hj2 => hmin j hj2)
  · intro h
    exact Legacy.tolLoop_none target r d h fuel 0 (50 + dPA)
  · intro i hi
    have hj := (Legacy.tolLoop_times target r d fuel 0 (50 + dPA)).2 i hi
    simpa using hj

theorem legacy_move_tolerance_loop_w :
    (0 : Nat) < 1 ∧
    |(fun _ : Nat => (0 : ℚ)) 0 - 0| < 1/200 ∧
    (Legacy.moveAbsolute 1 0 0 (fun _ => 0) (fun _ => 0) 1).2.1 = some 0 :=
  ⟨by decide, by simp,
   (legacy_move_tolerance_loop 1 0 0 (fun _ => 0) (fun _ => 0) 1).2.2.1 0
     (by decide) (by simp) (fun j hj => absurd hj (Nat.not_lt_zero j))⟩
